import Mathlib

/-!
Shallow embedding of `lambda/index.py` from the simplechat repository: a single
AWS Lambda handler that validates an inbound chat request, forwards the message
to a remote text-generation endpoint, and relays the result.

Modelling conventions:
* JSON values are the inductive `Json`; Python dicts built by `json.loads` are
  association lists where a later binding for the same key overwrites an
  earlier one (`dictGetLast`).
* `json.loads` / `response.json()` are not repository code; the handler is
  parameterised by a parse oracle `loads : String → Except String Json`
  (`.error e` models a raised `json.JSONDecodeError` whose `str` is `e`).
  Concrete scenarios use `loadsFix`, which agrees with CPython's `json.loads`
  on every string it is applied to.
* The single `requests.post` call is modelled by its outcome `PostOutcome`;
  the handler records the request it would have sent in `outboundCall`, so
  that absence of an outbound call is observable.
* Python exceptions are `PyExc` (type name and message). The exception that
  reaches the top-level `except Exception` handler, if any, is returned in
  `raised` — it is what the code logs; only its type name reaches the caller.
* Python floats 0.7 and 0.9 are modelled as the rationals 7/10 and 9/10.
-/

namespace SimpleChat

/-- JSON values. `obj` keeps the field list in insertion order; duplicate keys
may occur syntactically, with the last occurrence winning on lookup, matching
Python dict construction. -/
inductive Json where
  | null
  | bool (b : Bool)
  | num (q : Rat)
  | str (s : String)
  | arr (elems : List Json)
  | obj (fields : List (String × Json))

/-- Python-dict lookup on an association list: the last binding for a key
wins, matching insertion-order overwrite semantics. -/
def dictGetLast {α : Type} (key : String) : List (String × α) → Option α
  | [] => none
  | (k, v) :: rest =>
    match dictGetLast key rest with
    | some w => some w
    | none => if k = key then some v else none

/-- `k.lower()` on an ASCII header name (header names are ASCII; Python
`str.lower` agrees with per-character ASCII lowering there). -/
def lowerAscii (s : String) : String :=
  ⟨s.data.map Char.toLower⟩

/-- `\x7bk.lower(): v for k, v in hs.items()\x7d.get(key)`: case-insensitive
header lookup, later occurrences overwriting earlier ones. -/
def lowerHeaderGet (key : String) (hs : List (String × String)) : Option String :=
  dictGetLast key (hs.map (fun kv => (lowerAscii kv.1, kv.2)))

/-- The Python type name of a JSON value, used in exception messages. -/
def Json.pyTypeName : Json → String
  | .null => "NoneType"
  | .bool _ => "bool"
  | .num q => if q.den = 1 then "int" else "float"
  | .str _ => "str"
  | .arr _ => "list"
  | .obj _ => "dict"

/-- Whether a JSON value is an object that has the given member key. -/
def Json.objKeyPresent (j : Json) (key : String) : Bool :=
  match j with
  | .obj fields => (dictGetLast key fields).isSome
  | _ => false

/-- A raised Python exception: its type name and its `str`. Only the type
name is ever shown to the caller; the message goes to the log. -/
structure PyExc where
  tyName : String
  emsg : String

/-- The inbound Lambda event: `body` (absent or a string; API Gateway supplies
a string) and `headers` (absent modelled as `[]`, matching
`event.get("headers", \x7b\x7d)`). The `requestContext.authorizer` claims are
only printed and are not modelled. -/
structure Event where
  body : Option String
  headers : List (String × String)

/-- The JSON payload built for the FastAPI `/generate` call (source lines
52–58). Only `prompt` depends on the request. -/
structure FastapiPayload where
  prompt : Json
  max_new_tokens : Nat
  do_sample : Bool
  temperature : Rat
  top_p : Rat

/-- The outbound HTTP POST the handler performs: URL, headers, JSON payload. -/
structure OutboundRequest where
  url : String
  headers : List (String × String)
  payload : FastapiPayload

/-- The HTTP response dict returned by the handler; `body` is the JSON value
that `json.dumps` serialises. -/
structure HttpResponse where
  statusCode : Nat
  headers : List (String × String)
  body : Json

/-- The outcome of the single `requests.post` call, as seen by the caller of
the library: a timeout, a connection error, some other
`requests.exceptions.RequestException`, or an HTTP response with a status code
and a body text. -/
inductive PostOutcome where
  | timeout
  | connectionError (m : String)
  | otherRequestError (m : String)
  | response (status : Nat) (text : String)

/-- The observable result of one handler invocation: the HTTP response, the
outbound request that was performed (if any), and the exception that reached
the top-level handler (if any). -/
structure HandlerResult where
  response : HttpResponse
  outboundCall : Option OutboundRequest
  raised : Option PyExc

/-! ### Module-level configuration (source lines 8–13) -/

/-- The hard-coded fallback URL in `os.environ.get("NGROK_URL", ...)`. -/
def NGROK_URL_DEFAULT : String := "https://b05b-34-16-222-244.ngrok-free.app"

/-- `os.environ.get(key, dflt)` over an environment modelled as an
association list. -/
def osEnvironGet (env : List (String × String)) (key dflt : String) : String :=
  match dictGetLast key env with
  | some v => v
  | none => dflt

/-- `NGROK_URL = os.environ.get("NGROK_URL", "https://...")` (source line 8). -/
def NGROK_URL (env : List (String × String)) : String :=
  osEnvironGet env "NGROK_URL" NGROK_URL_DEFAULT

/-- Whether module initialisation raises: the guard
`if not NGROK_URL: raise ValueError(...)` (source lines 9–10) fires exactly
when the computed `NGROK_URL` is the empty string. -/
def moduleInitRaises (env : List (String × String)) : Bool :=
  NGROK_URL env = ""

/-- `GENERATE_PATH = "/generate"` (source line 12). -/
def GENERATE_PATH : String := "/generate"

/-- `NGROK_URL.rstrip("/")`: drop trailing slash characters. -/
def rstripSlash (s : String) : String :=
  ⟨(s.data.reverse.dropWhile (fun c => c = '/')).reverse⟩

/-- `full_url = NGROK_URL.rstrip("/") + GENERATE_PATH` (source line 13). -/
def full_url (env : List (String × String)) : String :=
  rstripSlash (NGROK_URL env) ++ GENERATE_PATH

/-! ### Body parsing (source lines 29–46) -/

/-- Outcome of the inner body-parsing `try` block: a caught client error
(`except (json.JSONDecodeError, KeyError, ValueError)` → 400), an uncaught
exception propagating to the top level, or the parsed `message` and
`conversationHistory`. -/
inductive ParsePhase where
  | badRequest (emsg : String)
  | uncaught (exc : PyExc)
  | ok (message : Json) (history : Json)

/-- `str` of the `TypeError` raised by `body["message"]` when the parsed JSON
is not a dict. -/
def subscriptTypeErrorMsg (j : Json) : String :=
  match j with
  | .str _ => "string indices must be integers"
  | .arr _ => "list indices must be integers or slices, not str"
  | j => "\x27" ++ j.pyTypeName ++ "\x27 object is not subscriptable"

/-- `body.get("conversationHistory", [])` (source line 34). -/
def historyGet (fields : List (String × Json)) : Json :=
  match dictGetLast "conversationHistory" fields with
  | some h => h
  | none => Json.arr []

/-- Source lines 29–37: reject a missing or falsy (empty) body, parse it with
`json.loads`, fetch `body["message"]` (a `KeyError` is caught as a client
error; a `TypeError` on non-dict JSON is not), and read
`body.get("conversationHistory", [])`. -/
def parseBody (loads : String → Except String Json) (event : Event) : ParsePhase :=
  match event.body with
  | none => .badRequest "Request body is missing or empty."
  | some s =>
    if s = "" then .badRequest "Request body is missing or empty."
    else
      match loads s with
      | .error e => .badRequest e
      | .ok bodyJson =>
        match bodyJson with
        | .obj fields =>
          match dictGetLast "message" fields with
          | none => .badRequest "\x27message\x27"
          | some m => .ok m (historyGet fields)
        | j => .uncaught { tyName := "TypeError", emsg := subscriptTypeErrorMsg j }

/-! ### History copy and turns (source lines 49–50, 133–136) -/

/-- `conversation_history.copy()` followed by `.append(...)`: succeeds only on
a list; a dict survives `.copy()` but fails `.append`, every other type lacks
`.copy`. Either way a non-list history raises an `AttributeError` before any
outbound call. -/
def historyCopy : Json → Except PyExc (List Json)
  | .arr xs => .ok xs
  | .obj _ =>
    .error { tyName := "AttributeError",
             emsg := "\x27dict\x27 object has no attribute \x27append\x27" }
  | j =>
    .error { tyName := "AttributeError",
             emsg := "\x27" ++ j.pyTypeName ++ "\x27 object has no attribute \x27copy\x27" }

/-- The user turn appended at source line 50. -/
def userTurn (m : Json) : Json :=
  .obj [("role", .str "user"), ("content", m)]

/-- The assistant turn appended at source lines 133–136. -/
def assistantTurn (g : Json) : Json :=
  .obj [("role", .str "assistant"), ("content", g)]

/-! ### Outbound request construction (source lines 52–72) -/

/-- The fixed outbound headers (source lines 60–64). -/
def baseOutboundHeaders : List (String × String) :=
  [("accept", "application/json"),
   ("Content-Type", "application/json"),
   ("User-Agent", "AWS-Lambda-Function/1.0")]

/-- `event_headers.get("authorization")` after lower-casing all keys
(source lines 66–67). -/
def authLookup (event : Event) : Option String :=
  lowerHeaderGet "authorization" event.headers

/-- Source lines 66–72: forward the `Authorization` header only when the
case-insensitive lookup yields a truthy (non-empty) value. -/
def outboundHeaders (event : Event) : List (String × String) :=
  match authLookup event with
  | some v => if v = "" then baseOutboundHeaders
              else baseOutboundHeaders ++ [("Authorization", v)]
  | none => baseOutboundHeaders

/-- The payload of source lines 52–58. -/
def mkPayload (message : Json) : FastapiPayload :=
  { prompt := message
    max_new_tokens := 512
    do_sample := true
    temperature := 7/10
    top_p := 9/10 }

/-! ### The outbound call and response handling (source lines 79–128) -/

/-- `"generated_text" in response_body` followed by
`response_body["generated_text"]` (source lines 98–102): Python `in` is key
membership for a dict, element membership for a list, substring test for a
string, and a `TypeError` otherwise; subscripting with a string then succeeds
only on a dict. A `False` membership test raises the `ValueError` of source
line 100, re-raised at line 128. -/
def extractGenerated (rb : Json) : Except PyExc Json :=
  match rb with
  | .obj fields =>
    match dictGetLast "generated_text" fields with
    | some v => .ok v
    | none =>
      .error { tyName := "ValueError",
               emsg := "Invalid response format from FastAPI: \x27generated_text\x27 key missing." }
  | .arr xs =>
    if xs.any (fun e => match e with | .str s => s = "generated_text" | _ => false) then
      .error { tyName := "TypeError", emsg := subscriptTypeErrorMsg (.arr xs) }
    else
      .error { tyName := "ValueError",
               emsg := "Invalid response format from FastAPI: \x27generated_text\x27 key missing." }
  | .str s =>
    if (s.splitOn "generated_text").length ≠ 1 then
      .error { tyName := "TypeError", emsg := subscriptTypeErrorMsg (.str s) }
    else
      .error { tyName := "ValueError",
               emsg := "Invalid response format from FastAPI: \x27generated_text\x27 key missing." }
  | j =>
    .error { tyName := "TypeError",
             emsg := "argument of type \x27" ++ j.pyTypeName ++ "\x27 is not iterable" }

/-- Source lines 79–128: classify the outcome of the `requests.post` call.
`response.raise_for_status()` raises `HTTPError` exactly for status codes in
400–599; `response.json()` re-parses the body text; each inner handler wraps
the failure in a fresh `Exception` whose message carries the diagnostic
(HTTP errors and non-JSON bodies carry at most the first 500 characters of
the body text); the missing-`generated_text` `ValueError` is re-raised. -/
def callOutcome (loads : String → Except String Json) (outcome : PostOutcome) :
    Except PyExc Json :=
  match outcome with
  | .timeout => .error { tyName := "Exception", emsg := "FastAPI endpoint timed out." }
  | .connectionError m =>
    .error { tyName := "Exception", emsg := "FastAPI connection error: " ++ m }
  | .otherRequestError m =>
    .error { tyName := "Exception", emsg := "FastAPI request failed: " ++ m }
  | .response status text =>
    if 400 ≤ status ∧ status < 600 then
      .error { tyName := "Exception",
               emsg := "FastAPI HTTP error " ++ toString status ++ ". Response: " ++ text.take 500 }
    else
      match loads text with
      | .error _ =>
        .error { tyName := "Exception",
                 emsg := "FastAPI returned non-JSON response: " ++ text.take 500 }
      | .ok rb => extractGenerated rb

/-! ### Response construction (source lines 39–46, 140–153, 162–174) -/

/-- Headers of the 400 and 500 responses (source lines 41–44, 164–167). -/
def corsBaseHeaders : List (String × String) :=
  [("Content-Type", "application/json"),
   ("Access-Control-Allow-Origin", "*")]

/-- Headers of the 200 response (source lines 142–147). -/
def success200Headers : List (String × String) :=
  [("Content-Type", "application/json"),
   ("Access-Control-Allow-Origin", "*"),
   ("Access-Control-Allow-Headers", "Content-Type,X-Amz-Date,Authorization,X-Api-Key,X-Amz-Security-Token"),
   ("Access-Control-Allow-Methods", "OPTIONS,POST")]

/-- The 400 response of source lines 39–46. -/
def badRequestResponse (emsg : String) : HttpResponse :=
  { statusCode := 400
    headers := corsBaseHeaders
    body := .obj [("success", .bool false),
                  ("error", .str ("Invalid request body: " ++ emsg))] }

/-- The caller-visible error text of the 500 response (source line 171):
only the exception type name appears. -/
def genericErrorText (tyName : String) : String :=
  "An internal server error occurred. Check logs for details. Error type: " ++ tyName

/-- The 500 response of source lines 162–174. -/
def serverErrorResponse (exc : PyExc) : HttpResponse :=
  { statusCode := 500
    headers := corsBaseHeaders
    body := .obj [("success", .bool false),
                  ("error", .str (genericErrorText exc.tyName))] }

/-- The 200 response of source lines 140–153. -/
def success200Response (g : Json) (msgs : List Json) : HttpResponse :=
  { statusCode := 200
    headers := success200Headers
    body := .obj [("success", .bool true),
                  ("response", g),
                  ("conversationHistory", .arr msgs)] }

/-- The whole handler (source lines 15–174), as a function of the environment,
the JSON-parse oracle, the outcome of the (at most one) outbound POST, and
the inbound event. -/
def lambda_handler (env : List (String × String)) (loads : String → Except String Json)
    (outcome : PostOutcome) (event : Event) : HandlerResult :=
  match parseBody loads event with
  | .badRequest emsg =>
    { response := badRequestResponse emsg, outboundCall := none, raised := none }
  | .uncaught exc =>
    { response := serverErrorResponse exc, outboundCall := none, raised := some exc }
  | .ok message history =>
    match historyCopy history with
    | .error exc =>
      { response := serverErrorResponse exc, outboundCall := none, raised := some exc }
    | .ok hist =>
      let messages := hist ++ [userTurn message]
      let call : OutboundRequest :=
        { url := full_url env
          headers := outboundHeaders event
          payload := mkPayload message }
      match callOutcome loads outcome with
      | .error exc =>
        { response := serverErrorResponse exc, outboundCall := some call, raised := some exc }
      | .ok g =>
        { response := success200Response g (messages ++ [assistantTurn g])
          outboundCall := some call
          raised := none }

/-! ### Failure classification used by the error-handling claims -/

/-- The upstream failure categories seen by the handler: a timeout, a
connection error, another `requests` exception, an HTTP error status
(400–599, the statuses on which `raise_for_status` raises), a 100–399
response whose body is not valid JSON, a 100–399 response whose JSON body
is not an object holding `generated_text` (an object lacking the key, or a
non-object body, on which lines 98–102 raise), or — the catch-all — any
unexpected exception raised during the call phase. -/
def upstreamFailure (loads : String → Except String Json) (outcome : PostOutcome) : Prop :=
  outcome = .timeout ∨
  (∃ m, outcome = .connectionError m) ∨
  (∃ m, outcome = .otherRequestError m) ∨
  (∃ s t, outcome = .response s t ∧ 400 ≤ s ∧ s < 600) ∨
  (∃ s t e, outcome = .response s t ∧ ¬(400 ≤ s ∧ s < 600) ∧ loads t = .error e) ∨
  (∃ s t rb, outcome = .response s t ∧ ¬(400 ≤ s ∧ s < 600) ∧
    loads t = .ok rb ∧ rb.objKeyPresent "generated_text" = false) ∨
  (∃ exc, callOutcome loads outcome = .error exc)

/-! ### Concrete fixtures for witnesses and counterexamples -/

/-- A model of `json.loads` fixed on the finitely many body strings used in
the concrete scenarios below; it agrees with CPython `json.loads` on each
string it is actually applied to (any other string is reported as a decode
error). -/
def loadsFix : String → Except String Json := fun s =>
  if s = "\x7b\"message\": \"hi\"\x7d" then .ok (.obj [("message", .str "hi")])
  else if s = "\x7b\"generated_text\": \"hello\"\x7d" then
    .ok (.obj [("generated_text", .str "hello")])
  else if s = "[1]" then .ok (.arr [.num 1])
  else if s = "\x7b\"foo\": \"bar\"\x7d" then .ok (.obj [("foo", .str "bar")])
  else if s = "\x7b\"message\": \"\"\x7d" then .ok (.obj [("message", .str "")])
  else if s = "\x7b\"message\": \"hi\", \"conversationHistory\": 5\x7d" then
    .ok (.obj [("message", .str "hi"), ("conversationHistory", .num 5)])
  else .error "Expecting value: line 1 column 1 (char 0)"

/-- An inbound event with body `\x7b"message": "hi"\x7d` and no headers. -/
def eventHi : Event := { body := some "\x7b\"message\": \"hi\"\x7d", headers := [] }

/-- The upstream body text `\x7b"generated_text": "hello"\x7d`. -/
def helloBodyText : String := "\x7b\"generated_text\": \"hello\"\x7d"

/-- An event with no `body` key. -/
def eventNoBody : Event := { body := none, headers := [] }

/-- An event whose body is the JSON array `[1]` — valid JSON that is not an
object, so it has no `message` member. -/
def eventArrBody : Event := { body := some "[1]", headers := [] }

/-- An event carrying an upper-cased `Authorization` header. -/
def eventWithAuth : Event :=
  { body := some "\x7b\"message\": \"hi\"\x7d"
    headers := [("AUTHORIZATION", "Bearer abc")] }

/-- An event whose `Authorization` header is present but empty. -/
def eventEmptyAuth : Event :=
  { body := some "\x7b\"message\": \"hi\"\x7d"
    headers := [("Authorization", "")] }

/-- An event whose body has `message` equal to the empty string. -/
def eventEmptyMsg : Event := { body := some "\x7b\"message\": \"\"\x7d", headers := [] }

/-- An event whose body has `conversationHistory` equal to the number 5. -/
def eventBadHist : Event :=
  { body := some "\x7b\"message\": \"hi\", \"conversationHistory\": 5\x7d", headers := [] }

/-- A surfaced upstream 301 response carrying a well-formed generation body. -/
def outcome301 : PostOutcome := PostOutcome.response 301 helloBodyText

/-- A surfaced upstream 304 response carrying a well-formed generation body. -/
def outcome304 : PostOutcome := PostOutcome.response 304 helloBodyText

/-! ### Theorems -/

/-- Claim C1: on the success path the handler appends exactly one user turn
with the inbound message and, after it, exactly one assistant turn with the
generated text, to a copy of the supplied conversation history, leaving the
prior entries and their order unchanged; the response is a 200 whose body
carries the extended history. -/
theorem C1_appends_turns (env : List (String × String))
    (loads : String → Except String Json) (outcome : PostOutcome) (event : Event)
    (m g : Json) (hist : List Json)
    (hparse : parseBody loads event = .ok m (.arr hist))
    (hcall : callOutcome loads outcome = .ok g) :
    (lambda_handler env loads outcome event).response.statusCode = 200 ∧
    (lambda_handler env loads outcome event).response.body =
      .obj [("success", .bool true), ("response", g),
            ("conversationHistory", .arr (hist ++ [userTurn m, assistantTurn g]))] := by
  simp [lambda_handler, hparse, hcall, historyCopy, success200Response]

/-- Claim C1 witness: inbound message "hi", empty history, upstream
`\x7b"generated_text": "hello"\x7d` yields 200 with conversation history
`[user "hi", assistant "hello"]`. -/
theorem C1_appends_turns_witness :
    (lambda_handler [] loadsFix (PostOutcome.response 200 helloBodyText) eventHi).response.statusCode = 200 ∧
    (lambda_handler [] loadsFix (PostOutcome.response 200 helloBodyText) eventHi).response.body =
      .obj [("success", .bool true), ("response", .str "hello"),
            ("conversationHistory",
             .arr [userTurn (.str "hi"), assistantTurn (.str "hello")])] :=
  C1_appends_turns [] loadsFix (PostOutcome.response 200 helloBodyText) eventHi
    (.str "hi") (.str "hello") [] (by rfl) (by rfl)

/-- Claim C2: whenever the request body validates, the outbound generation
request is performed with `prompt` equal to the inbound `message` verbatim
and the fixed constants max_new_tokens = 512, do_sample = true,
temperature = 0.7, top_p = 0.9; only `prompt` varies across calls. -/
theorem C2_fixed_payload (env : List (String × String))
    (loads : String → Except String Json) (outcome : PostOutcome) (event : Event)
    (m : Json) (hist : List Json)
    (hparse : parseBody loads event = .ok m (.arr hist)) :
    ∃ call, (lambda_handler env loads outcome event).outboundCall = some call ∧
      call.payload.prompt = m ∧
      call.payload.max_new_tokens = 512 ∧
      call.payload.do_sample = true ∧
      call.payload.temperature = 7/10 ∧
      call.payload.top_p = 9/10 := by
  refine ⟨{ url := full_url env, headers := outboundHeaders event, payload := mkPayload m },
    ?_, rfl, rfl, rfl, rfl, rfl⟩
  cases hc : callOutcome loads outcome <;>
    simp [lambda_handler, hparse, hc, historyCopy, mkPayload]

/-- Claim C2 witness: the concrete "hi" request produces an outbound payload
with prompt "hi" and the fixed generation constants. -/
theorem C2_fixed_payload_witness :
    ∃ call, (lambda_handler [] loadsFix PostOutcome.timeout eventHi).outboundCall = some call ∧
      call.payload.prompt = .str "hi" ∧
      call.payload.max_new_tokens = 512 ∧
      call.payload.do_sample = true ∧
      call.payload.temperature = 7/10 ∧
      call.payload.top_p = 9/10 :=
  C2_fixed_payload [] loadsFix PostOutcome.timeout eventHi (.str "hi") [] (by rfl)

/-- Claim C3 (amended): a missing or empty body, a body that is not valid
JSON, or a body that parses to a JSON object lacking the `message` key each
yield a 400 with `success: false` and a descriptive error (mentioning
"missing or empty" in the first case), and no outbound POST is made on any
of these paths. (A body parsing to non-object JSON instead escapes the
validation handler as a `TypeError` and yields a 500.) -/
theorem C3_amended_client_errors (env : List (String × String))
    (loads : String → Except String Json) (outcome : PostOutcome) (event : Event) :
    ((event.body = none ∨ event.body = some "") →
      (lambda_handler env loads outcome event).response.statusCode = 400 ∧
      (lambda_handler env loads outcome event).response.body =
        .obj [("success", .bool false),
              ("error", .str "Invalid request body: Request body is missing or empty.")] ∧
      (lambda_handler env loads outcome event).outboundCall = none) ∧
    (∀ s e, event.body = some s → s ≠ "" → loads s = .error e →
      (lambda_handler env loads outcome event).response.statusCode = 400 ∧
      (lambda_handler env loads outcome event).response.body =
        .obj [("success", .bool false),
              ("error", .str ("Invalid request body: " ++ e))] ∧
      (lambda_handler env loads outcome event).outboundCall = none) ∧
    (∀ s fields, event.body = some s → s ≠ "" → loads s = .ok (.obj fields) →
      dictGetLast "message" fields = none →
      (lambda_handler env loads outcome event).response.statusCode = 400 ∧
      (lambda_handler env loads outcome event).response.body =
        .obj [("success", .bool false),
              ("error", .str "Invalid request body: \x27message\x27")] ∧
      (lambda_handler env loads outcome event).outboundCall = none) := by
  refine ⟨?_, ?_, ?_⟩
  · rintro (hb | hb) <;>
      simp [lambda_handler, parseBody, hb, badRequestResponse]
  · intro s e hb hne hl
    simp [lambda_handler, parseBody, hb, hne, hl, badRequestResponse]
  · intro s fields hb hne hl hm
    simp [lambda_handler, parseBody, hb, hne, hl, hm, badRequestResponse]

/-- Claim C3 witness: an event with no `body` key yields 400 with the
"missing or empty" error and no outbound call. -/
theorem C3_amended_client_errors_witness :
    (lambda_handler [] loadsFix PostOutcome.timeout eventNoBody).response.statusCode = 400 ∧
    (lambda_handler [] loadsFix PostOutcome.timeout eventNoBody).response.body =
      .obj [("success", .bool false),
            ("error", .str "Invalid request body: Request body is missing or empty.")] ∧
    (lambda_handler [] loadsFix PostOutcome.timeout eventNoBody).outboundCall = none :=
  (C3_amended_client_errors [] loadsFix PostOutcome.timeout eventNoBody).1 (Or.inl rfl)

/-- Claim C3 counterexample: the body `[1]` is valid JSON lacking a `message`
key, yet the handler returns 500, not 400 — `body["message"]` raises a
`TypeError` that the 400-producing handler does not catch. -/
theorem C3_counterexample_nonobject_body :
    loadsFix "[1]" = .ok (.arr [.num 1]) ∧
    (Json.arr [.num 1]).objKeyPresent "message" = false ∧
    (lambda_handler [] loadsFix PostOutcome.timeout eventArrBody).response.statusCode = 500 ∧
    ¬ (lambda_handler [] loadsFix PostOutcome.timeout eventArrBody).response.statusCode = 400 := by
  refine ⟨rfl, rfl, rfl, by decide⟩

/-- Helper: extraction fails on every response body that is not a JSON
object holding `generated_text` — an object lacking the key, or any
non-object value (lines 98–102 then raise a `ValueError` or `TypeError`). -/
theorem extractGenerated_error_of_no_key (rb : Json)
    (hg : rb.objKeyPresent "generated_text" = false) :
    ∃ exc, extractGenerated rb = .error exc := by
  cases rb with
  | obj fields =>
    cases hd : dictGetLast "generated_text" fields with
    | some v => simp [Json.objKeyPresent, hd] at hg
    | none =>
      exact ⟨⟨"ValueError",
        "Invalid response format from FastAPI: \x27generated_text\x27 key missing."⟩,
        by simp [extractGenerated, hd]⟩
  | arr xs =>
    simp only [extractGenerated]
    split
    · exact ⟨_, rfl⟩
    · exact ⟨_, rfl⟩
  | str s0 =>
    simp only [extractGenerated]
    split
    · exact ⟨_, rfl⟩
    · exact ⟨_, rfl⟩
  | null => exact ⟨_, rfl⟩
  | bool b => exact ⟨_, rfl⟩
  | num q => exact ⟨_, rfl⟩

/-- Helper: whatever makes the call phase raise, the exception's type is one
of the three fixed names `Exception`, `ValueError`, `TypeError` — never a
type carrying caller-visible upstream detail. -/
theorem callOutcome_error_tyName (loads : String → Except String Json)
    (outcome : PostOutcome) (exc : PyExc)
    (h : callOutcome loads outcome = .error exc) :
    exc.tyName = "Exception" ∨ exc.tyName = "ValueError" ∨ exc.tyName = "TypeError" := by
  cases outcome with
  | timeout => cases h; exact Or.inl rfl
  | connectionError m => cases h; exact Or.inl rfl
  | otherRequestError m => cases h; exact Or.inl rfl
  | response s t =>
    by_cases h4 : 400 ≤ s ∧ s < 600
    · rw [callOutcome, if_pos h4] at h
      cases h; exact Or.inl rfl
    · rw [callOutcome, if_neg h4] at h
      cases hl : loads t with
      | error e => rw [hl] at h; cases h; exact Or.inl rfl
      | ok rb =>
        rw [hl] at h
        cases rb with
        | obj fields =>
          simp only [extractGenerated] at h
          cases hd : dictGetLast "generated_text" fields with
          | some v => simp only [hd] at h; cases h
          | none => simp only [hd] at h; cases h; exact Or.inr (Or.inl rfl)
        | arr xs =>
          simp only [extractGenerated] at h
          split at h
          · cases h; exact Or.inr (Or.inr rfl)
          · cases h; exact Or.inr (Or.inl rfl)
        | str s0 =>
          simp only [extractGenerated] at h
          split at h
          · cases h; exact Or.inr (Or.inr rfl)
          · cases h; exact Or.inr (Or.inl rfl)
        | null => simp only [extractGenerated] at h; cases h; exact Or.inr (Or.inr rfl)
        | bool b => simp only [extractGenerated] at h; cases h; exact Or.inr (Or.inr rfl)
        | num q => simp only [extractGenerated] at h; cases h; exact Or.inr (Or.inr rfl)

/-- Helper: every enumerated upstream failure makes the outbound-call phase
raise, with one of the three fixed exception type names. -/
theorem upstreamFailure_error (loads : String → Except String Json) (outcome : PostOutcome)
    (hfail : upstreamFailure loads outcome) :
    ∃ exc, callOutcome loads outcome = .error exc ∧
      (exc.tyName = "Exception" ∨ exc.tyName = "ValueError" ∨ exc.tyName = "TypeError") := by
  have herr : ∃ exc, callOutcome loads outcome = .error exc := by
    rcases hfail with h | ⟨m', h⟩ | ⟨m', h⟩ | ⟨s, t, h, h4⟩ |
      ⟨s, t, e, h, hn, hl⟩ | ⟨s, t, rb, h, hn, hl, hg⟩ | hcatch
    · subst h; exact ⟨_, rfl⟩
    · subst h; exact ⟨_, rfl⟩
    · subst h; exact ⟨_, rfl⟩
    · subst h
      refine ⟨⟨"Exception", "FastAPI HTTP error " ++ toString s ++ ". Response: " ++ t.take 500⟩, ?_⟩
      simp only [callOutcome]
      rw [if_pos h4]
    · subst h
      refine ⟨⟨"Exception", "FastAPI returned non-JSON response: " ++ t.take 500⟩, ?_⟩
      simp only [callOutcome]
      rw [if_neg hn, hl]
    · subst h
      obtain ⟨exc, hex⟩ := extractGenerated_error_of_no_key rb hg
      refine ⟨exc, ?_⟩
      simp only [callOutcome]
      rw [if_neg hn, hl]
      exact hex
    · exact hcatch
  obtain ⟨exc, hc⟩ := herr
  exact ⟨exc, hc, callOutcome_error_tyName loads outcome exc hc⟩

/-- Claim C4 (amended): for every upstream or internal failure of the
outbound call — timeout, connection failure, HTTP status 400–599, response
body not valid JSON, response JSON missing `generated_text` (including
non-object response JSON, on which the extraction raises), or any
unexpected exception during the call phase — the handler returns 500 with
`success: false` and a caller-visible error that is the fixed generic
template plus only the exception type name ("Exception", "ValueError" or
"TypeError"); no upstream detail reaches the caller. (A surfaced 1xx/3xx
status with a well-formed body is not treated as a failure.) -/
theorem C4_amended_generic_500 (env : List (String × String))
    (loads : String → Except String Json) (outcome : PostOutcome) (event : Event)
    (m : Json) (hist : List Json)
    (hparse : parseBody loads event = .ok m (.arr hist))
    (hfail : upstreamFailure loads outcome) :
    (lambda_handler env loads outcome event).response.statusCode = 500 ∧
    ∃ ty, (ty = "Exception" ∨ ty = "ValueError" ∨ ty = "TypeError") ∧
      (lambda_handler env loads outcome event).response.body =
        .obj [("success", .bool false), ("error", .str (genericErrorText ty))] := by
  obtain ⟨exc, hc, hty⟩ := upstreamFailure_error loads outcome hfail
  refine ⟨?_, exc.tyName, hty, ?_⟩ <;>
    simp [lambda_handler, hparse, hc, historyCopy, serverErrorResponse]

/-- Claim C4 witness: an upstream timeout on the "hi" request yields 500,
`success: false`, and the generic internal-server-error message. -/
theorem C4_amended_generic_500_witness :
    (lambda_handler [] loadsFix PostOutcome.timeout eventHi).response.statusCode = 500 ∧
    ∃ ty, (ty = "Exception" ∨ ty = "ValueError" ∨ ty = "TypeError") ∧
      (lambda_handler [] loadsFix PostOutcome.timeout eventHi).response.body =
        .obj [("success", .bool false), ("error", .str (genericErrorText ty))] :=
  C4_amended_generic_500 [] loadsFix PostOutcome.timeout eventHi (.str "hi") []
    (by rfl) (Or.inl rfl)

/-- Claim C4 counterexample: a surfaced 301 — a non-2xx status — whose body
is well-formed generation JSON is answered with 200 and no raised error,
not with the 500 the claim requires: `raise_for_status` only raises for
status codes 400–599. -/
theorem C4_counterexample_301 :
    ¬ (200 ≤ 301 ∧ 301 < 300) ∧
    (lambda_handler [] loadsFix outcome301 eventHi).response.statusCode = 200 ∧
    (lambda_handler [] loadsFix outcome301 eventHi).raised = none := by
  exact ⟨by decide, rfl, rfl⟩

/-- Claim C5 (amended): the outbound headers are exactly the three fixed
ones plus, when the case-insensitive lookup of the inbound `Authorization`
header (last occurrence winning) yields a non-empty value, that identical
value under the key `Authorization`; when the header is absent — or present
with an empty value, which the code's truthiness test treats as absent — the
outbound request has no `Authorization` header, and no other inbound header
is forwarded. -/
theorem C5_amended_auth_forwarding (env : List (String × String))
    (loads : String → Except String Json) (outcome : PostOutcome) (event : Event)
    (m : Json) (hist : List Json)
    (hparse : parseBody loads event = .ok m (.arr hist)) :
    ∃ call, (lambda_handler env loads outcome event).outboundCall = some call ∧
      call.headers = outboundHeaders event ∧
      (∀ v, authLookup event = some v → v ≠ "" →
        call.headers = baseOutboundHeaders ++ [("Authorization", v)] ∧
        dictGetLast "Authorization" call.headers = some v) ∧
      ((authLookup event = none ∨ authLookup event = some "") →
        call.headers = baseOutboundHeaders ∧
        dictGetLast "Authorization" call.headers = none) := by
  refine ⟨{ url := full_url env, headers := outboundHeaders event, payload := mkPayload m },
    ?_, rfl, ?_, ?_⟩
  · cases hc : callOutcome loads outcome <;>
      simp [lambda_handler, hparse, hc, historyCopy, mkPayload]
  · intro v hv hne
    constructor
    · simp [outboundHeaders, hv, hne]
    · simp [outboundHeaders, hv, hne, dictGetLast, baseOutboundHeaders]
  · rintro (hv | hv) <;>
      simp [outboundHeaders, hv, dictGetLast, baseOutboundHeaders]

/-- Claim C5 witness: an inbound header `AUTHORIZATION: Bearer abc` is
forwarded as `Authorization: Bearer abc` on the outbound request. -/
theorem C5_amended_auth_forwarding_witness :
    ∃ call, (lambda_handler [] loadsFix PostOutcome.timeout eventWithAuth).outboundCall = some call ∧
      call.headers = outboundHeaders eventWithAuth ∧
      (∀ v, authLookup eventWithAuth = some v → v ≠ "" →
        call.headers = baseOutboundHeaders ++ [("Authorization", v)] ∧
        dictGetLast "Authorization" call.headers = some v) ∧
      ((authLookup eventWithAuth = none ∨ authLookup eventWithAuth = some "") →
        call.headers = baseOutboundHeaders ∧
        dictGetLast "Authorization" call.headers = none) :=
  C5_amended_auth_forwarding [] loadsFix PostOutcome.timeout eventWithAuth (.str "hi") [] (by rfl)

/-- Claim C5 counterexample: an inbound `Authorization` header that is
present but empty is not forwarded — the outbound request carries no
`Authorization` header, because the code tests the value for truthiness,
not the key for presence. -/
theorem C5_counterexample_empty_auth :
    authLookup eventEmptyAuth = some "" ∧
    ∃ call, (lambda_handler [] loadsFix PostOutcome.timeout eventEmptyAuth).outboundCall = some call ∧
      dictGetLast "Authorization" call.headers = none := by
  refine ⟨rfl, { url := full_url [], headers := outboundHeaders eventEmptyAuth,
                 payload := mkPayload (.str "hi") }, rfl, by decide⟩

/-- Claim C6: the code does NOT fail at startup when the NGROK_URL setting
is absent — `os.environ.get` supplies a hard-coded default, so the
`if not NGROK_URL: raise` guard (whose own message says "environment
variable is not set!") is unreachable in that case and the module proceeds
with the fallback URL. It raises only when the variable is set to the empty
string. -/
theorem C6_no_failfast_when_env_absent :
    moduleInitRaises [] = false ∧
    NGROK_URL [] = NGROK_URL_DEFAULT ∧
    full_url [] = NGROK_URL_DEFAULT ++ GENERATE_PATH ∧
    moduleInitRaises [("NGROK_URL", "")] = true := by
  refine ⟨by decide, rfl, by decide, by decide⟩

/-- Claim C7: every response the handler returns — 200, 400 and 500 —
carries `Access-Control-Allow-Origin: *`, and the 200 response additionally
carries `Access-Control-Allow-Headers` and
`Access-Control-Allow-Methods: OPTIONS,POST`. -/
theorem C7_cors_headers (env : List (String × String))
    (loads : String → Except String Json) (outcome : PostOutcome) (event : Event) :
    dictGetLast "Access-Control-Allow-Origin"
      (lambda_handler env loads outcome event).response.headers = some "*" ∧
    ((lambda_handler env loads outcome event).response.statusCode = 200 →
      dictGetLast "Access-Control-Allow-Headers"
        (lambda_handler env loads outcome event).response.headers =
        some "Content-Type,X-Amz-Date,Authorization,X-Api-Key,X-Amz-Security-Token" ∧
      dictGetLast "Access-Control-Allow-Methods"
        (lambda_handler env loads outcome event).response.headers = some "OPTIONS,POST") := by
  cases hp : parseBody loads event with
  | badRequest e =>
    simp [lambda_handler, hp, badRequestResponse, corsBaseHeaders, dictGetLast]
  | uncaught exc =>
    simp [lambda_handler, hp, serverErrorResponse, corsBaseHeaders, dictGetLast]
  | ok m h =>
    cases hh : historyCopy h with
    | error exc =>
      simp [lambda_handler, hp, hh, serverErrorResponse, corsBaseHeaders, dictGetLast]
    | ok hist =>
      cases hc : callOutcome loads outcome with
      | error exc =>
        simp [lambda_handler, hp, hh, hc, serverErrorResponse, corsBaseHeaders, dictGetLast]
      | ok g =>
        simp [lambda_handler, hp, hh, hc, success200Response, success200Headers, dictGetLast]

/-- Claim C7 witness: in the concrete success scenario the 200 response
carries all three CORS headers. -/
theorem C7_cors_headers_witness :
    dictGetLast "Access-Control-Allow-Origin"
      (lambda_handler [] loadsFix (PostOutcome.response 200 helloBodyText) eventHi).response.headers =
      some "*" ∧
    dictGetLast "Access-Control-Allow-Headers"
      (lambda_handler [] loadsFix (PostOutcome.response 200 helloBodyText) eventHi).response.headers =
      some "Content-Type,X-Amz-Date,Authorization,X-Api-Key,X-Amz-Security-Token" ∧
    dictGetLast "Access-Control-Allow-Methods"
      (lambda_handler [] loadsFix (PostOutcome.response 200 helloBodyText) eventHi).response.headers =
      some "OPTIONS,POST" :=
  ⟨(C7_cors_headers [] loadsFix (PostOutcome.response 200 helloBodyText) eventHi).1,
   ((C7_cors_headers [] loadsFix (PostOutcome.response 200 helloBodyText) eventHi).2 (by rfl)).1,
   ((C7_cors_headers [] loadsFix (PostOutcome.response 200 helloBodyText) eventHi).2 (by rfl)).2⟩

/-- Claim C8 (amended): when the outbound call returns an HTTP status in
400–599 (the statuses on which `raise_for_status` raises), the handler
raises an internal error whose carried detail is exactly the first at most
500 characters of the upstream response body, and the caller receives a 500
response. -/
theorem C8_amended_http_error_truncated (env : List (String × String))
    (loads : String → Except String Json) (event : Event)
    (m : Json) (hist : List Json) (s : Nat) (t : String)
    (hparse : parseBody loads event = .ok m (.arr hist))
    (h4 : 400 ≤ s) (h6 : s < 600) :
    (lambda_handler env loads (.response s t) event).response.statusCode = 500 ∧
    (lambda_handler env loads (.response s t) event).raised =
      some ⟨"Exception", "FastAPI HTTP error " ++ toString s ++ ". Response: " ++ t.take 500⟩ ∧
    (t.take 500).length ≤ 500 := by
  have hc : callOutcome loads (.response s t) =
      .error ⟨"Exception", "FastAPI HTTP error " ++ toString s ++ ". Response: " ++ t.take 500⟩ := by
    simp only [callOutcome]
    rw [if_pos ⟨h4, h6⟩]
  refine ⟨?_, ?_, ?_⟩
  · simp [lambda_handler, hparse, hc, historyCopy, serverErrorResponse]
  · simp [lambda_handler, hparse, hc, historyCopy]
  · rw [String.take_eq]
    exact List.length_take_le 500 t.1

/-- Claim C8 witness: a 502 with body "upstream exploded" is classified as an
internal error carrying that (short, hence untruncated) body and surfaces as
a 500. -/
theorem C8_amended_http_error_truncated_witness :
    (lambda_handler [] loadsFix (PostOutcome.response 502 "upstream exploded") eventHi).response.statusCode = 500 ∧
    (lambda_handler [] loadsFix (PostOutcome.response 502 "upstream exploded") eventHi).raised =
      some ⟨"Exception",
        "FastAPI HTTP error " ++ toString 502 ++ ". Response: " ++ ("upstream exploded" : String).take 500⟩ ∧
    (("upstream exploded" : String).take 500).length ≤ 500 :=
  C8_amended_http_error_truncated [] loadsFix eventHi (.str "hi") [] 502 "upstream exploded"
    (by rfl) (by decide) (by decide)

/-- Claim C8 counterexample: a surfaced 304 — a non-2xx status — with a
well-formed generation body is not classified as an error at all: the
handler returns 200 and raises nothing, because `raise_for_status` raises
only for statuses 400–599. -/
theorem C8_counterexample_304 :
    ¬ (200 ≤ 304 ∧ 304 < 300) ∧
    (lambda_handler [] loadsFix outcome304 eventHi).response.statusCode = 200 ∧
    (lambda_handler [] loadsFix outcome304 eventHi).raised = none := by
  exact ⟨by decide, rfl, rfl⟩

/-- Claim C9: a body whose `message` is the empty string passes validation —
the code only checks that the key can be fetched — so the handler never
answers 400 for it, and the empty string is forwarded verbatim as the
outbound `prompt`. -/
theorem C9_empty_message_accepted (env : List (String × String))
    (loads : String → Except String Json) (outcome : PostOutcome) (event : Event)
    (s : String) (fields : List (String × Json)) (hist : List Json)
    (hb : event.body = some s) (hne : s ≠ "")
    (hl : loads s = .ok (.obj fields))
    (hm : dictGetLast "message" fields = some (.str ""))
    (hh : historyGet fields = .arr hist) :
    (lambda_handler env loads outcome event).response.statusCode ≠ 400 ∧
    ∃ call, (lambda_handler env loads outcome event).outboundCall = some call ∧
      call.payload.prompt = .str "" := by
  have hp : parseBody loads event = .ok (.str "") (.arr hist) := by
    simp [parseBody, hb, hne, hl, hm, hh]
  constructor
  · cases hc : callOutcome loads outcome <;>
      simp [lambda_handler, hp, hc, historyCopy, serverErrorResponse, success200Response]
  · refine ⟨{ url := full_url env, headers := outboundHeaders event,
              payload := mkPayload (.str "") }, ?_, rfl⟩
    cases hc : callOutcome loads outcome <;>
      simp [lambda_handler, hp, hc, historyCopy, mkPayload]

/-- Claim C9 witness: the concrete body with `message: ""` is accepted and
the outbound prompt is the empty string. -/
theorem C9_empty_message_accepted_witness :
    (lambda_handler [] loadsFix PostOutcome.timeout eventEmptyMsg).response.statusCode ≠ 400 ∧
    ∃ call, (lambda_handler [] loadsFix PostOutcome.timeout eventEmptyMsg).outboundCall = some call ∧
      call.payload.prompt = .str "" :=
  C9_empty_message_accepted [] loadsFix PostOutcome.timeout eventEmptyMsg
    "\x7b\"message\": \"\"\x7d" [("message", .str "")] []
    rfl (by decide) (by rfl) (by rfl) (by rfl)

/-- Claim C10: a body containing `message` whose `conversationHistory` is not
a list passes body validation, then fails at `.copy()`/`.append` with an
`AttributeError` that only the top-level handler catches: the caller gets a
500 (not a 400), no outbound POST is made, and the logged exception is the
`AttributeError`. -/
theorem C10_nonlist_history_500 (env : List (String × String))
    (loads : String → Except String Json) (outcome : PostOutcome) (event : Event)
    (s : String) (fields : List (String × Json)) (m h : Json)
    (hb : event.body = some s) (hne : s ≠ "")
    (hl : loads s = .ok (.obj fields))
    (hm : dictGetLast "message" fields = some m)
    (hh : dictGetLast "conversationHistory" fields = some h)
    (hnl : ∀ xs, h ≠ .arr xs) :
    (lambda_handler env loads outcome event).response.statusCode = 500 ∧
    (lambda_handler env loads outcome event).response.statusCode ≠ 400 ∧
    (lambda_handler env loads outcome event).outboundCall = none ∧
    (lambda_handler env loads outcome event).response.body =
      .obj [("success", .bool false), ("error", .str (genericErrorText "AttributeError"))] ∧
    ∃ exc, (lambda_handler env loads outcome event).raised = some exc ∧
      exc.tyName = "AttributeError" := by
  have hp : parseBody loads event = .ok m h := by
    simp [parseBody, hb, hne, hl, hm, historyGet, hh]
  have hcopy : ∃ exc, historyCopy h = .error exc ∧ exc.tyName = "AttributeError" := by
    cases h with
    | arr xs => exact absurd rfl (hnl xs)
    | null => exact ⟨_, rfl, rfl⟩
    | bool b => exact ⟨_, rfl, rfl⟩
    | num q => exact ⟨_, rfl, rfl⟩
    | str s0 => exact ⟨_, rfl, rfl⟩
    | obj fs => exact ⟨_, rfl, rfl⟩
  obtain ⟨exc, hc, hty⟩ := hcopy
  refine ⟨?_, ?_, ?_, ?_, exc, ?_, hty⟩ <;>
    simp [lambda_handler, hp, hc, serverErrorResponse, hty]

/-- Claim C10 witness: `conversationHistory: 5` with a valid `message` gives
a 500 whose logged exception is an `AttributeError`, with no outbound call. -/
theorem C10_nonlist_history_500_witness :
    (lambda_handler [] loadsFix PostOutcome.timeout eventBadHist).response.statusCode = 500 ∧
    (lambda_handler [] loadsFix PostOutcome.timeout eventBadHist).response.statusCode ≠ 400 ∧
    (lambda_handler [] loadsFix PostOutcome.timeout eventBadHist).outboundCall = none ∧
    (lambda_handler [] loadsFix PostOutcome.timeout eventBadHist).response.body =
      .obj [("success", .bool false), ("error", .str (genericErrorText "AttributeError"))] ∧
    ∃ exc, (lambda_handler [] loadsFix PostOutcome.timeout eventBadHist).raised = some exc ∧
      exc.tyName = "AttributeError" :=
  C10_nonlist_history_500 [] loadsFix PostOutcome.timeout eventBadHist
    "\x7b\"message\": \"hi\", \"conversationHistory\": 5\x7d"
    [("message", .str "hi"), ("conversationHistory", .num 5)] (.str "hi") (.num 5)
    rfl (by decide) (by rfl) (by rfl) (by rfl)
    (fun xs hxs => Json.noConfusion hxs)

end SimpleChat
